import Mathlib

/-!
Verification of the Product Performance Optimizer core analytics.

This file gives a shallow embedding, over the rationals, of the analysis
pipeline implemented in `src/analyzers` and `src/orchestrator.py`:

* the composite percentile scorer and zombie detection of
  `sku_rationalization.py` (pandas `rank(pct=True, ascending=False)`,
  `np.percentile` with linear interpolation),
* the customer-overlap cannibalization detector of `cannibalization.py`,
* the contribution-margin calculator of `contribution_margin.py`,
* the benchmark scoring of `new_product_scoring.py`
  (pandas `Series.quantile`, linear interpolation),
* the slow-mover urgency classifier of `slow_mover_detection.py`,
* recommendation consolidation and the traffic-light status overlay of
  `orchestrator.py` (Python's stable `list.sort`).

Money and count columns are modelled as `ℚ`; a pandas `NaN` produced by a
failed left join is modelled as `Option.none`; `np.inf` days-of-supply is
modelled as `Option.none`; a pandas `DataFrame` that can lack columns is
modelled as a `Frame` carrying a `hasCols` flag, and the `KeyError` raised
by a column access on a column-less frame is an `Except.error`.
-/

namespace ProductPerf

/-! ### Contribution margin (`contribution_margin.py`, lines 77-115) -/

/-- One row of the merged sales/inventory table consumed by
`ContributionMarginAnalyzer._calculate_contribution_margins`. -/
structure MarginRow where
  sku : String
  revenue : ℚ
  units : ℚ
  fees : ℚ
  shippingCost : ℚ
  returns : ℚ
  costPerUnit : ℚ
deriving DecidableEq, Repr

/-- Cost of goods sold: `margins['cogs'] = margins['units'] * margins['cost_per_unit']`. -/
def cogs (r : MarginRow) : ℚ := r.units * r.costPerUnit

/-- Return cost: `margins['return_cost'] = margins['returns'] * 0.5`. -/
def returnCost (r : MarginRow) : ℚ := r.returns * (0.5 : ℚ)

/-- Total costs: `fees + shipping_cost + cogs + return_cost`. -/
def totalCosts (r : MarginRow) : ℚ := r.fees + r.shippingCost + cogs r + returnCost r

/-- Contribution margin: `margins['revenue'] - margins['total_costs']`. -/
def contributionMargin (r : MarginRow) : ℚ := r.revenue - totalCosts r

/-- Contribution margin percentage:
`np.where(revenue > 0, contribution_margin / revenue, 0)`. -/
def contributionMarginPct (r : MarginRow) : ℚ :=
  if 0 < r.revenue then contributionMargin r / r.revenue else 0

/-- Profit per unit: `np.where(units > 0, contribution_margin / units, 0)`. -/
def profitPerUnit (r : MarginRow) : ℚ :=
  if 0 < r.units then contributionMargin r / r.units else 0

/-! ### Traffic-light status overlay (`orchestrator.py`, lines 173-204) -/

/-- The three severities of `_generate_traffic_light_status`. -/
inductive TrafficStatus where
  | green
  | yellow
  | red
deriving DecidableEq, Repr, Fintype

/-- Numeric severity: red is most severe. -/
def severity : TrafficStatus → ℕ
  | .green => 0
  | .yellow => 1
  | .red => 2

/-- The four escalation rules applied by `_generate_traffic_light_status`,
one per analysis membership that touches a sku's status. -/
inductive StatusRule where
  | zombie
  | moneyLoser
  | criticalSlowMover
  | newProductUnderperformer
deriving DecidableEq, Repr, Fintype

/-- One rule application, transcribing the four `if` blocks of
`_generate_traffic_light_status`: zombies and critical slow movers set red
unconditionally; a money loser sets yellow unless the status is already red;
a new-product underperformer sets yellow only from green. -/
def applyRule (s : TrafficStatus) : StatusRule → TrafficStatus
  | .zombie => .red
  | .moneyLoser => if s = .red then s else .yellow
  | .criticalSlowMover => .red
  | .newProductUnderperformer => if s = .green then .yellow else s

/-- Folding all rules that fire for one sku over the initial `green` status. -/
def applyRules (rules : List StatusRule) : TrafficStatus :=
  rules.foldl applyRule .green

/-! ### Slow-mover urgency (`slow_mover_detection.py`, lines 118-178) -/

/-- Days of supply: `quantity_on_hand / units_per_day` when the velocity is
positive, `np.inf` (modelled as `none`) otherwise. -/
def daysOfSupply (quantityOnHand unitsPerDay : ℚ) : Option ℚ :=
  if 0 < unitsPerDay then some (quantityOnHand / unitsPerDay) else none

/-- The retention filter of `_identify_slow_movers`:
`(days_of_supply >= threshold) | (days_of_supply == np.inf)`. -/
def isSlowMover (threshold : ℚ) (days : Option ℚ) : Bool :=
  match days with
  | none => true
  | some d => decide (threshold ≤ d)

/-- The urgency ladder of `_get_urgency`: infinite days are critical, then
365 or more days are critical, then the configured threshold gives high,
otherwise medium. -/
def getUrgency (threshold : ℚ) (days : Option ℚ) : String :=
  match days with
  | none => "critical"
  | some d => if 365 ≤ d then "critical" else if threshold ≤ d then "high" else "medium"

/-! ### Composite percentile rank (`sku_rationalization.py`, lines 106-111) -/

/-- Value of pandas `Series.rank(pct=True, ascending=False)` (tie method
`average`, the default) at value `v` of a column: strictly greater entries
rank ahead, ties share the average of their rank block, and the result is
divided by the column length. -/
def rankPctDesc (column : List ℚ) (v : ℚ) : ℚ :=
  (((column.countP (fun w => decide (v < w))) : ℚ)
      + (((column.countP (fun w => decide (w = v))) : ℚ) + 1) / 2)
    / (column.length : ℚ)

/-- The composite score of `_calculate_metrics`:
`revenue.rank(pct=True, ascending=False) * 0.4 + profit.rank(...) * 0.4 +
velocity_score.rank(...) * 0.2`. -/
def compositeScoreOf (revenueCol profitCol velocityCol : List ℚ)
    (revenue profit velocity : ℚ) : ℚ :=
  rankPctDesc revenueCol revenue * (0.4 : ℚ)
    + rankPctDesc profitCol profit * (0.4 : ℚ)
    + rankPctDesc velocityCol velocity * (0.2 : ℚ)

/-! ### Linear-interpolation percentile (`np.percentile`, `Series.quantile`)

`np.percentile(a, q)` with the default linear interpolation sorts the data,
places `pos = q/100 * (n-1)` on the order statistics, and interpolates
between the two neighbouring sorted values.  pandas `Series.quantile(q)`
is the same computation with `q` in `[0, 1]`. -/

/-- Sorted value at index `i`, clamped to the last element (the clamp is
only reached at `pos = n-1`, where the interpolation weight of the upper
neighbour is zero). -/
def nthClamped (a : List ℚ) (i : ℕ) : ℚ := a.getD (min i (a.length - 1)) 0

/-- Linear interpolation on an already sorted list at fractional position
`pos`. -/
def interpSorted (a : List ℚ) (pos : ℚ) : ℚ :=
  let i : ℕ := (⌊pos⌋).toNat
  nthClamped a i + (pos - (i : ℚ)) * (nthClamped a (i + 1) - nthClamped a i)

/-- `np.percentile(values, q)` with linear interpolation. -/
def npPercentile (values : List ℚ) (q : ℚ) : ℚ :=
  interpSorted (values.insertionSort (· ≤ ·)) (q / 100 * ((values.length : ℚ) - 1))

/-- pandas `Series.quantile(q)` with linear interpolation, `q ∈ [0, 1]`. -/
def quantileLinear (values : List ℚ) (q : ℚ) : ℚ :=
  interpSorted (values.insertionSort (· ≤ ·)) (q * ((values.length : ℚ) - 1))

/-! ### New-product benchmark scoring (`new_product_scoring.py`, lines 184-214) -/

/-- The per-window percentile benchmarks stored by `_calculate_benchmarks`. -/
structure Benchmarks where
  revenueP50 : ℚ
  revenueP75 : ℚ
  revenueP90 : ℚ
  unitsP50 : ℚ
  unitsP75 : ℚ
  unitsP90 : ℚ
deriving DecidableEq, Repr

/-- `_calculate_benchmarks` for one window, from the per-sku revenue and
units sums of the window's reference population. -/
def calculateBenchmarks (windowRevenues windowUnits : List ℚ) : Benchmarks where
  revenueP50 := quantileLinear windowRevenues (0.5 : ℚ)
  revenueP75 := quantileLinear windowRevenues (0.75 : ℚ)
  revenueP90 := quantileLinear windowRevenues (0.9 : ℚ)
  unitsP50 := quantileLinear windowUnits (0.5 : ℚ)
  unitsP75 := quantileLinear windowUnits (0.75 : ℚ)
  unitsP90 := quantileLinear windowUnits (0.9 : ℚ)

/-- The score computation of `_score_new_products`, lines 196-204, used for
both the revenue score and the units score:
`score = min(actual/p75, 1.0) if p75 > 0 else 0` — but only when the
corresponding `p50 > 0`; otherwise the score is `0`.  A `NaN` benchmark
(empty reference population) fails the `> 0` comparison and also lands in
the `0` branch. -/
def benchmarkScore (actual p50 p75 : ℚ) : ℚ :=
  if 0 < p50 then (if 0 < p75 then min (actual / p75) 1 else 0) else 0

/-- Lines 184-214 of `_score_new_products`: a sku with sales in the window
is scored against the window benchmarks; a sku with no sales in the window
(`windowSales = none`) gets revenue, units and both scores equal to `0`.
The result tuple is `(revenue, units, revenue_score, units_score)`. -/
def scoreWindow (windowSales : Option (ℚ × ℚ)) (bench : Benchmarks) : ℚ × ℚ × ℚ × ℚ :=
  match windowSales with
  | some (revenue, units) =>
      (revenue, units,
        benchmarkScore revenue bench.revenueP50 bench.revenueP75,
        benchmarkScore units bench.unitsP50 bench.unitsP75)
  | none => (0, 0, 0, 0)

/-! ### Cannibalization (`cannibalization.py`) -/

/-- A raw purchase event row of the `customer_overlap` input table. -/
structure PurchaseRecord where
  customerId : String
  sku : String
deriving DecidableEq, Repr

/-- A sales row as consumed by the cannibalization and rationalization
analyzers (already per-event; the analyzers aggregate by sku). -/
structure SaleRecord where
  sku : String
  revenue : ℚ
  units : ℚ
deriving DecidableEq, Repr

/-- A pandas `DataFrame` whose column set can be empty: `pd.DataFrame()` and
`pd.DataFrame([])` carry no columns, so selecting a column from them raises
`KeyError`.  `hasCols` records whether the frame has its columns. -/
structure Frame (ρ : Type) where
  hasCols : Bool
  rows : List ρ
deriving Repr

/-- First-occurrence deduplication, the order produced by pandas
`Series.unique` and by iterating a Python `dict`. -/
def uniqueFirst (l : List String) : List String :=
  l.foldl (fun acc x => if x ∈ acc then acc else acc ++ [x]) []

/-- `itertools.combinations(skus, 2)` in list order. -/
def skuPairs : List String → List (String × String)
  | [] => []
  | x :: xs => xs.map (fun y => (x, y)) ++ skuPairs xs

/-- The distinct customers who bought a given sku (the dict scan in
`_calculate_overlap_matrix`, lines 61-68). -/
def customersOf (purchases : List PurchaseRecord) (sku : String) : List String :=
  uniqueFirst ((purchases.filter (fun p => decide (p.sku = sku))).map (·.customerId))

/-- One row of the overlap matrix built by `_calculate_overlap_matrix`. -/
structure OverlapRow where
  sku1 : String
  sku2 : String
  customersSku1 : ℕ
  customersSku2 : ℕ
  overlapCount : ℕ
  overlapPct : ℚ
deriving DecidableEq, Repr

/-- Lines 61-85 of `_calculate_overlap_matrix` for one pair: skip the pair
unless one side has a customer, and skip it if the union is empty;
otherwise report the Jaccard overlap `|intersection| / |union|`. -/
def overlapRowFor (purchases : List PurchaseRecord) (pair : String × String) :
    Option OverlapRow :=
  let c1 := customersOf purchases pair.1
  let c2 := customersOf purchases pair.2
  if c1.length ≠ 0 ∨ c2.length ≠ 0 then
    let inter := (c1.filter (fun c => decide (c ∈ c2))).length
    let union := (c1 ++ c2.filter (fun c => decide (c ∉ c1))).length
    if 0 < union then
      some { sku1 := pair.1, sku2 := pair.2,
             customersSku1 := c1.length, customersSku2 := c2.length,
             overlapCount := inter, overlapPct := (inter : ℚ) / (union : ℚ) }
    else none
  else none

/-- `_calculate_overlap_matrix`: the empty-input early return and the
`pd.DataFrame(overlap_pairs)` construction, which yields a column-less
frame exactly when the list of pair rows is empty. -/
def calculateOverlapMatrix (purchases : List PurchaseRecord) : Frame OverlapRow :=
  if purchases.isEmpty then { hasCols := false, rows := [] }
  else
    let skus := uniqueFirst (purchases.map (·.sku))
    let pairRows := (skuPairs skus).filterMap (overlapRowFor purchases)
    { hasCols := !pairRows.isEmpty, rows := pairRows }

/-- Total revenue of a sku in the sales table, as produced by the
`groupby('sku').agg` + left-merge of `_identify_cannibalization`: a sku
absent from the sales table gets `NaN` (modelled `none`). -/
def totalRevenueOf (sales : List SaleRecord) (sku : String) : Option ℚ :=
  let matching := sales.filter (fun s => decide (s.sku = sku))
  if matching.isEmpty then none else some ((matching.map (·.revenue)).sum)

/-- A retained cannibalization pair row after the sales merge. -/
structure CannibalizationPair where
  sku1 : String
  sku2 : String
  overlapPct : ℚ
  revenue1 : Option ℚ
  revenue2 : Option ℚ
deriving DecidableEq, Repr

/-- pandas comparison `revenue1 >= revenue2` on possibly-`NaN` floats:
`False` whenever either side is `NaN`. -/
def revenueGe : Option ℚ → Option ℚ → Bool
  | some a, some b => decide (b ≤ a)
  | _, _ => false

/-- Line 121-124: `stronger_sku = sku1 if revenue1 >= revenue2 else sku2`. -/
def strongerSku (row : CannibalizationPair) : String :=
  if revenueGe row.revenue1 row.revenue2 then row.sku1 else row.sku2

/-- Line 126-129: `weaker_sku = sku2 if revenue1 >= revenue2 else sku1`. -/
def weakerSku (row : CannibalizationPair) : String :=
  if revenueGe row.revenue1 row.revenue2 then row.sku2 else row.sku1

/-- Line 147-149: `revenue_at_risk = min(revenue1, revenue2)` (only modelled
where both revenues are defined; the claims under verification only concern
such rows). -/
def revenueAtRisk (row : CannibalizationPair) : Option ℚ :=
  match row.revenue1, row.revenue2 with
  | some a, some b => some (min a b)
  | _, _ => none

/-- `_identify_cannibalization`: the `overlap_matrix.empty` early return
(another column-less frame), the `overlap_pct >= threshold` filter, the
sales merges, and the sort by overlap descending. -/
def identifyCannibalization (m : Frame OverlapRow) (sales : List SaleRecord)
    (threshold : ℚ) : Frame CannibalizationPair :=
  if m.rows.isEmpty then { hasCols := false, rows := [] }
  else
    let retained := m.rows.filter (fun r => decide (threshold ≤ r.overlapPct))
    let merged := retained.map (fun r =>
      { sku1 := r.sku1, sku2 := r.sku2, overlapPct := r.overlapPct,
        revenue1 := totalRevenueOf sales r.sku1,
        revenue2 := totalRevenueOf sales r.sku2 : CannibalizationPair })
    { hasCols := true,
      rows := merged.insertionSort (fun a b => b.overlapPct ≤ a.overlapPct) }

/-- The `high_risk_pairs` summary entry of `CannibalizationAnalyzer.analyze`
(line 41): `len(cannibal_pairs[cannibal_pairs['overlap_pct'] >= threshold])`.
Selecting `overlap_pct` from a column-less frame raises `KeyError`. -/
def highRiskPairs (pairs : Frame CannibalizationPair) (threshold : ℚ) :
    Except String ℕ :=
  if pairs.hasCols then
    .ok ((pairs.rows.filter (fun r => decide (threshold ≤ r.overlapPct))).length)
  else .error "KeyError: overlap_pct"

/-- The summary map returned by `CannibalizationAnalyzer.analyze`. -/
structure CannibalizationSummary where
  totalPairsAnalyzed : ℕ
  cannibalizationPairsCount : ℕ
  highRiskPairsCount : ℕ
deriving DecidableEq, Repr

/-- `CannibalizationAnalyzer.analyze`, reduced to its summary: the overlap
matrix, the retained pairs, and the three summary counters.  The result is
an `Except` because the `high_risk_pairs` entry can raise. -/
def cannibalizationAnalyze (purchases : List PurchaseRecord)
    (sales : List SaleRecord) (threshold : ℚ) :
    Except String CannibalizationSummary :=
  let m := calculateOverlapMatrix purchases
  let pairs := identifyCannibalization m sales threshold
  match highRiskPairs pairs threshold with
  | .ok h => .ok { totalPairsAnalyzed := m.rows.length,
                   cannibalizationPairsCount := pairs.rows.length,
                   highRiskPairsCount := h }
  | .error e => .error e

/-! ### SKU rationalization (`sku_rationalization.py`) -/

/-- A sales event row as consumed by `SKURationalizationAnalyzer`. -/
structure RatSaleRecord where
  sku : String
  revenue : ℚ
  units : ℚ
  fees : ℚ
  shippingCost : ℚ
deriving DecidableEq, Repr

/-- An inventory snapshot row (`at most one live snapshot per sku`). -/
structure InventoryRecord where
  sku : String
  quantityOnHand : ℚ
  costPerUnit : ℚ
deriving DecidableEq, Repr

/-- One row of the `_merge_data` output: per-sku sales sums outer-joined to
inventory, missing numeric fields filled with `0`. -/
structure MergedRow where
  sku : String
  revenue : ℚ
  units : ℚ
  fees : ℚ
  shippingCost : ℚ
  quantityOnHand : ℚ
  costPerUnit : ℚ
deriving DecidableEq, Repr

/-- `_merge_data`: `groupby('sku').agg(sum)` over the sales table, outer
merge with inventory on sku, `fillna(0)` on the numeric columns.  Sales-side
skus come first in first-occurrence order, then the inventory-only skus. -/
def mergeData (sales : List RatSaleRecord) (inventory : List InventoryRecord) :
    List MergedRow :=
  let salesSkus := uniqueFirst (sales.map (·.sku))
  let salesRows := salesSkus.map (fun k =>
    let g := sales.filter (fun s => decide (s.sku = k))
    let inv := inventory.find? (fun i => decide (i.sku = k))
    { sku := k,
      revenue := (g.map (·.revenue)).sum,
      units := (g.map (·.units)).sum,
      fees := (g.map (·.fees)).sum,
      shippingCost := (g.map (·.shippingCost)).sum,
      quantityOnHand := (inv.map (·.quantityOnHand)).getD 0,
      costPerUnit := (inv.map (·.costPerUnit)).getD 0 })
  let invOnly := (inventory.filter (fun i => decide (i.sku ∉ salesSkus))).map
    (fun i =>
      { sku := i.sku, revenue := 0, units := 0, fees := 0, shippingCost := 0,
        quantityOnHand := i.quantityOnHand, costPerUnit := i.costPerUnit })
  salesRows ++ invOnly

/-- One row of the `_calculate_metrics` output. -/
structure MetricRow where
  sku : String
  revenue : ℚ
  units : ℚ
  quantityOnHand : ℚ
  costPerUnit : ℚ
  profit : ℚ
  profitMargin : ℚ
  workingCapital : ℚ
  velocityScore : ℚ
  compositeScore : ℚ
deriving DecidableEq, Repr

/-- `_calculate_metrics`: profit, profit margin, working capital, the units
velocity proxy, and the composite score built from the three descending
percentile ranks. -/
def calculateMetrics (merged : List MergedRow) : List MetricRow :=
  let revenueCol := merged.map (·.revenue)
  let profitCol := merged.map (fun r => r.revenue - r.fees - r.shippingCost)
  let velocityCol := merged.map (·.units)
  merged.map (fun r =>
    let profit := r.revenue - r.fees - r.shippingCost
    { sku := r.sku, revenue := r.revenue, units := r.units,
      quantityOnHand := r.quantityOnHand, costPerUnit := r.costPerUnit,
      profit := profit,
      profitMargin := if (0 : ℚ) < r.revenue then profit / r.revenue else 0,
      workingCapital := r.quantityOnHand * r.costPerUnit,
      velocityScore := r.units,
      compositeScore := compositeScoreOf revenueCol profitCol velocityCol
        r.revenue profit r.units })

/-- `_identify_zombies`: restrict to the active set (`revenue > 0` or
`quantity_on_hand > 0`), return the empty frame when the active set is
empty, otherwise keep the skus whose composite score is at most the
`threshold_percentile`-th percentile of active composite scores, sorted
worst first. -/
def identifyZombies (metrics : List MetricRow) (thresholdPercentile : ℚ) :
    List MetricRow :=
  let active := metrics.filter (fun r =>
    decide (0 < r.revenue ∨ 0 < r.quantityOnHand))
  if active.isEmpty then []
  else
    let threshold := npPercentile (active.map (·.compositeScore)) thresholdPercentile
    (active.filter (fun r => decide (r.compositeScore ≤ threshold))).insertionSort
      (fun a b => a.compositeScore ≤ b.compositeScore)

/-- The financial-impact map of `_calculate_financial_impact`: working
capital freed, annualized (`× 12`) revenue and profit lost, net benefit. -/
structure FinancialImpact where
  workingCapitalFreed : ℚ
  annualRevenueLost : ℚ
  annualProfitLost : ℚ
  netBenefit : ℚ
deriving DecidableEq, Repr

/-- `_calculate_financial_impact`, including the all-zero result for an
empty zombie set. -/
def calculateFinancialImpact (zombies : List MetricRow) : FinancialImpact :=
  if zombies.isEmpty then
    { workingCapitalFreed := 0, annualRevenueLost := 0,
      annualProfitLost := 0, netBenefit := 0 }
  else
    let wc := (zombies.map (·.workingCapital)).sum
    let profitLost := (zombies.map (·.profit)).sum * 12
    { workingCapitalFreed := wc,
      annualRevenueLost := (zombies.map (·.revenue)).sum * 12,
      annualProfitLost := profitLost,
      netBenefit := wc - profitLost }

/-- The summary map of `SKURationalizationAnalyzer.analyze`. -/
structure RationalizationSummary where
  totalZombies : ℕ
  capitalFreed : ℚ
deriving DecidableEq, Repr

/-- `SKURationalizationAnalyzer.analyze`, reduced to its summary: merge,
metrics, zombies, financial impact, counts.  No step of this pipeline can
raise, so the result is total. -/
def rationalizationAnalyze (sales : List RatSaleRecord)
    (inventory : List InventoryRecord) (thresholdPercentile : ℚ) :
    RationalizationSummary :=
  let merged := mergeData sales inventory
  let metrics := calculateMetrics merged
  let zombies := identifyZombies metrics thresholdPercentile
  let impact := calculateFinancialImpact zombies
  { totalZombies := zombies.length, capitalFreed := impact.workingCapitalFreed }

/-! ### Recommendation consolidation (`orchestrator.py`, lines 132-149) -/

/-- A recommendation record as emitted by the components and tagged by the
consolidator. -/
structure Recommendation where
  recType : String
  priority : String
  action : String
  sourceAnalysis : String
deriving DecidableEq, Repr

/-- The `priority_order` dict of `_consolidate_recommendations`. -/
def priorityOrder : List (String × ℕ) :=
  [("critical", 0), ("high", 1), ("medium", 2), ("low", 3)]

/-- `priority_order.get(priority, 3)`: dict lookup with default `3`. -/
def priorityRank (priority : String) : ℕ :=
  ((priorityOrder.find? (fun kv => decide (kv.1 = priority))).map (·.2)).getD 3

/-- The sort relation of `_consolidate_recommendations`: compare the
priority ranks. -/
def recLE (a b : Recommendation) : Prop :=
  priorityRank a.priority ≤ priorityRank b.priority

instance : DecidableRel recLE := fun _ _ => Nat.decLe _ _

instance : IsTotal Recommendation recLE := ⟨fun _ _ => Nat.le_total _ _⟩

instance : IsTrans Recommendation recLE := ⟨fun _ _ _ => Nat.le_trans⟩

/-- `_consolidate_recommendations`: iterate the result bundle in component
order, tag each recommendation with its source analysis, concatenate, and
sort by priority rank.  Python's `list.sort` is stable; `insertionSort`
with the non-strict rank comparison is exactly that stable sort. -/
def consolidateRecommendations
    (componentLists : List (String × List Recommendation)) : List Recommendation :=
  let tagged := componentLists.map (fun c =>
    c.2.map (fun r => { r with sourceAnalysis := c.1 }))
  tagged.flatten.insertionSort recLE

/-- The emission-ordered concatenation (component order, then
within-component order) against which stability is stated. -/
def emittedRecommendations
    (componentLists : List (String × List Recommendation)) : List Recommendation :=
  (componentLists.map (fun c =>
    c.2.map (fun r => { r with sourceAnalysis := c.1 }))).flatten

/-! ### Concrete scenario data used by witnesses and counterexamples -/

/-- Two customers each buying both skus: identical buyer sets. -/
def scenarioPurchases : List PurchaseRecord :=
  [⟨"c1", "A"⟩, ⟨"c1", "B"⟩, ⟨"c2", "A"⟩, ⟨"c2", "B"⟩]

/-- Sku A with total revenue 1000, sku B with total revenue 400. -/
def scenarioSales : List SaleRecord := [⟨"A", 1000, 10⟩, ⟨"B", 400, 4⟩]

/-- The retained pair produced by the scenario. -/
def scenarioPair : CannibalizationPair :=
  { sku1 := "A", sku2 := "B", overlapPct := 1,
    revenue1 := some 1000, revenue2 := some 400 }

/-- Swapping two adjacent rule applications never changes the resulting
status: every rule either forces a fixed severity or lifts the status to a
fixed severity floor, so applications commute. -/
instance : RightCommutative applyRule := ⟨by decide⟩

/-- An active metric row with composite score 1, used as witness data. -/
def demoMetricLow : MetricRow :=
  { sku := "L", revenue := 5, units := 0, quantityOnHand := 0, costPerUnit := 0,
    profit := 0, profitMargin := 0, workingCapital := 0, velocityScore := 0,
    compositeScore := 1 }

/-- An active metric row with composite score 2, used as witness data. -/
def demoMetricHigh : MetricRow :=
  { sku := "H", revenue := 5, units := 0, quantityOnHand := 0, costPerUnit := 0,
    profit := 0, profitMargin := 0, workingCapital := 0, velocityScore := 0,
    compositeScore := 2 }

/-- A two-row metrics table for the zombie-threshold witness. -/
def demoMetrics : List MetricRow := [demoMetricLow, demoMetricHigh]

end ProductPerf

namespace ProductPerf

/-! ## Theorems -/

/-- C1: the claim says each of revenue, profit and velocity is
rank-transformed so that a higher underlying value receives a higher (or
equal) percentile.  The code calls `rank(pct=True, ascending=False)`, which
gives the HIGHEST value the LOWEST percentile (`1/n`): among revenues
`[10, 20, 30]` the sku with revenue `30` receives percentile `1/3` while
the sku with revenue `10` receives percentile `1`, strictly violating the
claimed direction.  This contradicts the code's own comment
(`lower is worse`) and the zombie-reason logic, so it is a code bug. -/
theorem rankPctDesc_reverses_order :
    (10 : ℚ) < 30 ∧
    rankPctDesc [10, 20, 30] 30 = 1 / 3 ∧
    rankPctDesc [10, 20, 30] 10 = 1 ∧
    rankPctDesc [10, 20, 30] 30 < rankPctDesc [10, 20, 30] 10 := by
  refine ⟨by norm_num, ?_, ?_, ?_⟩ <;> norm_num [rankPctDesc]

/-- C2: the claim says every analyzer returns a well-defined default on
empty inputs and never raises.  The SKU rationalization analyzer does: on
empty sales and inventory its summary is zero zombies and zero capital
freed.  But `CannibalizationAnalyzer.analyze` on an empty overlap table
builds a column-less pairs frame and then evaluates
`cannibal_pairs['overlap_pct']` in its summary, raising `KeyError`. -/
theorem emptyInput_cannibalization_raises :
    cannibalizationAnalyze [] [] (85 / 100) = .error "KeyError: overlap_pct" ∧
    rationalizationAnalyze [] [] 20 = { totalZombies := 0, capitalFreed := 0 } := by
  exact ⟨rfl, rfl⟩

/-- C3: for any retained pair with both revenues defined, the revenue at
risk is the minimum of the two revenues, and whenever the revenues differ
the stronger sku is the one with the higher revenue and the weaker sku the
other; moreover, in the spec scenario (identical buyer sets, revenues 1000
and 400) the pipeline retains exactly the pair with overlap 1, stronger sku
A, weaker sku B, and revenue at risk 400. -/
theorem cannibalization_stronger_weaker_risk :
    (∀ (row : CannibalizationPair) (a b : ℚ),
        row.revenue1 = some a → row.revenue2 = some b →
        revenueAtRisk row = some (min a b) ∧
        (b < a → strongerSku row = row.sku1 ∧ weakerSku row = row.sku2) ∧
        (a < b → strongerSku row = row.sku2 ∧ weakerSku row = row.sku1)) ∧
    (identifyCannibalization (calculateOverlapMatrix scenarioPurchases)
        scenarioSales (85 / 100)).rows = [scenarioPair] ∧
    scenarioPair.overlapPct = 1 ∧
    scenarioPair.revenue1 = some 1000 ∧
    scenarioPair.revenue2 = some 400 ∧
    strongerSku scenarioPair = "A" ∧
    weakerSku scenarioPair = "B" ∧
    revenueAtRisk scenarioPair = some 400 := by
  refine ⟨?_, ?_, rfl, rfl, rfl, ?_, ?_, ?_⟩
  · intro row a b h1 h2
    refine ⟨?_, fun hba => ?_, fun hab => ?_⟩
    · simp [revenueAtRisk, h1, h2]
    · simp [strongerSku, weakerSku, revenueGe, h1, h2, le_of_lt hba]
    · have hnle : ¬ b ≤ a := not_le.mpr hab
      simp [strongerSku, weakerSku, revenueGe, h1, h2, hnle]
  · have hrow : overlapRowFor scenarioPurchases ("A", "B")
        = some { sku1 := "A", sku2 := "B", customersSku1 := 2, customersSku2 := 2,
                 overlapCount := 2, overlapPct := 1 } := by
      have hA : customersOf scenarioPurchases "A" = ["c1", "c2"] := by decide
      have hB : customersOf scenarioPurchases "B" = ["c1", "c2"] := by decide
      rw [overlapRowFor]
      norm_num [hA, hB]
    have hne : scenarioPurchases.isEmpty = false := by decide
    have hpairs : skuPairs (uniqueFirst (scenarioPurchases.map (fun p => p.sku)))
        = [("A", "B")] := by decide
    have hmat : calculateOverlapMatrix scenarioPurchases
        = { hasCols := true,
            rows := [{ sku1 := "A", sku2 := "B", customersSku1 := 2, customersSku2 := 2,
                       overlapCount := 2, overlapPct := 1 }] } := by
      rw [calculateOverlapMatrix]
      simp [hne, hpairs, hrow]
    have hrevA : totalRevenueOf scenarioSales "A" = some 1000 := by
      simp [totalRevenueOf, scenarioSales]
    have hrevB : totalRevenueOf scenarioSales "B" = some 400 := by
      simp [totalRevenueOf, scenarioSales]
    rw [hmat, identifyCannibalization]
    norm_num [scenarioPair, List.filter_cons, List.insertionSort, List.orderedInsert,
      hrevA, hrevB]
  · norm_num [strongerSku, revenueGe, scenarioPair]
  · norm_num [weakerSku, revenueGe, scenarioPair]
  · norm_num [revenueAtRisk, scenarioPair]

/-- Witness for C3 at the scenario pair: revenues 1000 and 400 are defined
and distinct, so the general clause applies and reports stronger sku A,
weaker sku B, revenue at risk 400. -/
theorem cannibalization_stronger_weaker_risk_witness :
    revenueAtRisk scenarioPair = some (min 1000 400) ∧
    strongerSku scenarioPair = scenarioPair.sku1 ∧
    weakerSku scenarioPair = scenarioPair.sku2 := by
  obtain ⟨hmin, hstrong, -⟩ :=
    cannibalization_stronger_weaker_risk.1 scenarioPair 1000 400 (by decide) (by decide)
  exact ⟨hmin, hstrong (by norm_num)⟩

/-- C4: the contribution margin equals
`revenue - (fees + shipping_cost + units * cost_per_unit + returns * 0.5)`,
the margin percentage is `margin / revenue` for positive revenue and `0`
otherwise, and profit per unit is `margin / units` for positive units and
`0` otherwise. -/
theorem contributionMargin_spec (r : MarginRow) :
    contributionMargin r
        = r.revenue - (r.fees + r.shippingCost + r.units * r.costPerUnit
            + r.returns * (1 / 2)) ∧
    (0 < r.revenue → contributionMarginPct r = contributionMargin r / r.revenue) ∧
    (¬ 0 < r.revenue → contributionMarginPct r = 0) ∧
    (0 < r.units → profitPerUnit r = contributionMargin r / r.units) ∧
    (¬ 0 < r.units → profitPerUnit r = 0) := by
  refine ⟨?_, fun h => ?_, fun h => ?_, fun h => ?_, fun h => ?_⟩
  · show r.revenue - (r.fees + r.shippingCost + r.units * r.costPerUnit
        + r.returns * (0.5 : ℚ)) = _
    norm_num
  · simp [contributionMarginPct, h]
  · simp [contributionMarginPct, h]
  · simp [profitPerUnit, h]
  · simp [profitPerUnit, h]

/-- Witness for C4 at a concrete row with positive revenue and units. -/
theorem contributionMargin_spec_witness :
    contributionMarginPct ⟨"A", 100, 10, 5, 3, 4, 2⟩
        = contributionMargin ⟨"A", 100, 10, 5, 3, 4, 2⟩ / 100 ∧
    profitPerUnit ⟨"A", 100, 10, 5, 3, 4, 2⟩
        = contributionMargin ⟨"A", 100, 10, 5, 3, 4, 2⟩ / 10 :=
  ⟨(contributionMargin_spec ⟨"A", 100, 10, 5, 3, 4, 2⟩).2.1 (by norm_num),
   (contributionMargin_spec ⟨"A", 100, 10, 5, 3, 4, 2⟩).2.2.2.1 (by norm_num)⟩

/-- C5 counterexample: the claim says the revenue score equals
`min(actual/p75, 1.0)` whenever p75 is positive.  Take the window reference
population of revenue sums `[0, 0, 0, 8]`: its linear-interpolated p75 is
`2 > 0`, but its p50 is `0`, and the code's `revenue_p50 > 0` gate then
forces the score to `0`, not `min(8/2, 1) = 1`. -/
theorem benchmarkScore_p50_gate_counterexample :
    quantileLinear [0, 0, 0, 8] (0.5 : ℚ) = 0 ∧
    quantileLinear [0, 0, 0, 8] (0.75 : ℚ) = 2 ∧
    (0 : ℚ) < 2 ∧
    benchmarkScore 8 (quantileLinear [0, 0, 0, 8] (0.5 : ℚ))
        (quantileLinear [0, 0, 0, 8] (0.75 : ℚ)) = 0 ∧
    min ((8 : ℚ) / 2) 1 = 1 := by
  have h50 : quantileLinear [0, 0, 0, 8] (0.5 : ℚ) = 0 := by
    norm_num [quantileLinear, interpSorted, nthClamped, List.insertionSort,
      List.orderedInsert, show Int.toNat 1 = 1 from rfl]
  have h75 : quantileLinear [0, 0, 0, 8] (0.75 : ℚ) = 2 := by
    norm_num [quantileLinear, interpSorted, nthClamped, List.insertionSort,
      List.orderedInsert, show Int.toNat 2 = 2 from rfl]
  refine ⟨h50, h75, by norm_num, ?_, by norm_num⟩
  rw [h50, h75]
  norm_num [benchmarkScore]

/-- C5 as amended: the revenue score (and analogously the units score)
equals `min(actual/p75, 1.0)` when BOTH the window's p50 and p75 benchmarks
are positive; it is `0` when p50 is not positive (including NaN from an
undefined benchmark) or p75 is not positive; it never exceeds `1`; and a
sku with no sales in the window scores `0` on revenue and units alike. -/
theorem benchmarkScore_amended (actual p50 p75 : ℚ) :
    (0 < p50 → 0 < p75 → benchmarkScore actual p50 p75 = min (actual / p75) 1) ∧
    (¬ 0 < p50 → benchmarkScore actual p50 p75 = 0) ∧
    (0 < p50 → ¬ 0 < p75 → benchmarkScore actual p50 p75 = 0) ∧
    benchmarkScore actual p50 p75 ≤ 1 ∧
    (∀ bench : Benchmarks, scoreWindow none bench = (0, 0, 0, 0)) := by
  refine ⟨fun h50 h75 => ?_, fun h50 => ?_, fun h50 h75 => ?_, ?_, fun bench => rfl⟩
  · simp [benchmarkScore, h50, h75]
  · simp [benchmarkScore, h50]
  · simp [benchmarkScore, h50, h75]
  · by_cases h50 : 0 < p50 <;> by_cases h75 : 0 < p75 <;>
      simp [benchmarkScore, h50, h75]

/-- Witness for C5's amended claim at revenue 8 against positive benchmarks
p50 = 1, p75 = 2, and at the gate case p50 = 0, p75 = 2. -/
theorem benchmarkScore_amended_witness :
    benchmarkScore 8 1 2 = min ((8 : ℚ) / 2) 1 ∧
    benchmarkScore 8 0 2 = 0 :=
  ⟨(benchmarkScore_amended 8 1 2).1 (by norm_num) (by norm_num),
   (benchmarkScore_amended 8 0 2).2.1 (by norm_num)⟩

/-- C6: each rule application only escalates severity; zombies and critical
slow movers force red; a money loser turns green to yellow and leaves red
alone; a new-product underperformer turns exactly green to yellow and fixes
everything else; and the folded status is invariant under permuting the
applied rules. -/
theorem trafficLight_escalation :
    (∀ (s : TrafficStatus) (r : StatusRule), severity s ≤ severity (applyRule s r)) ∧
    (∀ s : TrafficStatus, applyRule s .zombie = .red) ∧
    (∀ s : TrafficStatus, applyRule s .criticalSlowMover = .red) ∧
    applyRule .green .moneyLoser = .yellow ∧
    applyRule .red .moneyLoser = .red ∧
    applyRule .green .newProductUnderperformer = .yellow ∧
    (∀ s : TrafficStatus, s ≠ .green → applyRule s .newProductUnderperformer = s) ∧
    (∀ l1 l2 : List StatusRule, l1.Perm l2 → applyRules l1 = applyRules l2) := by
  refine ⟨by decide, by decide, by decide, by decide, by decide, by decide, by decide,
    fun l1 l2 h => ?_⟩
  simpa [applyRules] using h.foldl_eq (f := applyRule) .green

/-- Witness for C6: a money loser observed before a zombie yields the same
final status as the reverse order, and an underperformer does not change a
red status. -/
theorem trafficLight_escalation_witness :
    applyRules [.moneyLoser, .zombie] = applyRules [.zombie, .moneyLoser] ∧
    applyRule .red .newProductUnderperformer = .red :=
  ⟨trafficLight_escalation.2.2.2.2.2.2.2 [.moneyLoser, .zombie] [.zombie, .moneyLoser]
      (by decide),
   trafficLight_escalation.2.2.2.2.2.2.1 .red (by decide)⟩

/-- Inserting a recommendation commutes with filtering on one priority-rank
bucket: the inserted element passes only over elements of strictly smaller
rank, so it lands in front of its own bucket and leaves the others
untouched. -/
theorem filter_orderedInsert_rank (k : ℕ) (x : Recommendation) :
    ∀ l : List Recommendation,
      (l.orderedInsert recLE x).filter (fun r => decide (priorityRank r.priority = k))
        = if priorityRank x.priority = k
            then x :: l.filter (fun r => decide (priorityRank r.priority = k))
            else l.filter (fun r => decide (priorityRank r.priority = k))
  | [] => by
      by_cases hx : priorityRank x.priority = k <;>
        simp [List.orderedInsert, List.filter_cons, hx]
  | y :: ys => by
      by_cases hxy : recLE x y
      · by_cases hx : priorityRank x.priority = k <;>
          simp [List.orderedInsert, hxy, List.filter_cons, hx]
      · have hyx : priorityRank y.priority < priorityRank x.priority := by
          simpa [recLE, not_le] using hxy
        by_cases hx : priorityRank x.priority = k
        · have hy : ¬ priorityRank y.priority = k := by omega
          simp [List.orderedInsert, hxy, List.filter_cons, hx, hy,
            filter_orderedInsert_rank k x ys]
        · by_cases hy : priorityRank y.priority = k <;>
            simp [List.orderedInsert, hxy, List.filter_cons, hx, hy,
              filter_orderedInsert_rank k x ys]

/-- The insertion sort used by the consolidator preserves each
priority-rank bucket of the input order: it is a stable sort. -/
theorem filter_insertionSort_rank (k : ℕ) :
    ∀ l : List Recommendation,
      (l.insertionSort recLE).filter (fun r => decide (priorityRank r.priority = k))
        = l.filter (fun r => decide (priorityRank r.priority = k))
  | [] => rfl
  | x :: xs => by
      rw [List.insertionSort, filter_orderedInsert_rank k x (xs.insertionSort recLE)]
      by_cases hx : priorityRank x.priority = k <;>
        simp [hx, List.filter_cons, filter_insertionSort_rank k xs]

/-- C7: consolidation concatenates the component recommendation lists in
emission order and stable-sorts by priority rank with critical=0, high=1,
medium=2, low=3 (default 3): the output is sorted by rank, and within each
priority the consolidated order equals the emission order (component order,
then within-component order). -/
theorem consolidation_priority_stable
    (componentLists : List (String × List Recommendation)) :
    priorityRank "critical" = 0 ∧ priorityRank "high" = 1 ∧
    priorityRank "medium" = 2 ∧ priorityRank "low" = 3 ∧
    List.Sorted recLE (consolidateRecommendations componentLists) ∧
    ∀ k : ℕ,
      (consolidateRecommendations componentLists).filter
          (fun r => decide (priorityRank r.priority = k))
        = (emittedRecommendations componentLists).filter
            (fun r => decide (priorityRank r.priority = k)) :=
  ⟨rfl, rfl, rfl, rfl, List.sorted_insertionSort recLE _,
   fun k => filter_insertionSort_rank k _⟩

/-- The clamped sorted access is monotone in the index on a sorted list. -/
theorem nthClamped_mono {a : List ℚ} (ha : a.Sorted (· ≤ ·)) {i j : ℕ}
    (hij : i ≤ j) : nthClamped a i ≤ nthClamped a j := by
  rcases eq_or_ne a [] with rfl | hne
  · simp [nthClamped]
  · have hlen : 0 < a.length := List.length_pos.mpr hne
    have hi : min i (a.length - 1) < a.length :=
      lt_of_le_of_lt (min_le_right _ _) (Nat.sub_lt hlen Nat.one_pos)
    have hj : min j (a.length - 1) < a.length :=
      lt_of_le_of_lt (min_le_right _ _) (Nat.sub_lt hlen Nat.one_pos)
    have hmin : min i (a.length - 1) ≤ min j (a.length - 1) :=
      min_le_min hij le_rfl
    unfold nthClamped
    rw [List.getD_eq_getElem?_getD, List.getElem?_eq_getElem hi,
        List.getD_eq_getElem?_getD, List.getElem?_eq_getElem hj]
    exact ha.rel_get_of_le
      (show (⟨min i (a.length - 1), hi⟩ : Fin a.length) ≤ ⟨min j (a.length - 1), hj⟩
        from hmin)

/-- For nonnegative `p`, the natural number `⌊p⌋.toNat` is at most `p`. -/
theorem toNat_floor_le {p : ℚ} (hp : 0 ≤ p) : ((⌊p⌋.toNat : ℚ)) ≤ p := by
  have h0 : (0 : ℤ) ≤ ⌊p⌋ := Int.floor_nonneg.mpr hp
  have h1 : ((⌊p⌋.toNat : ℤ) : ℚ) ≤ p := by
    rw [Int.toNat_of_nonneg h0]; exact Int.floor_le p
  exact_mod_cast h1

/-- For nonnegative `p`, `p` is below `⌊p⌋.toNat + 1`. -/
theorem lt_toNat_floor_add_one {p : ℚ} (hp : 0 ≤ p) :
    p < (⌊p⌋.toNat : ℚ) + 1 := by
  have h0 : (0 : ℤ) ≤ ⌊p⌋ := Int.floor_nonneg.mpr hp
  have h1 : p < ((⌊p⌋.toNat : ℤ) : ℚ) + 1 := by
    rw [Int.toNat_of_nonneg h0]; exact Int.lt_floor_add_one p
  exact_mod_cast h1

/-- Linear interpolation on a sorted list is monotone in the position: the
interpolant is a piecewise-linear function with nonnegative slopes. -/
theorem interpSorted_mono {a : List ℚ} (ha : a.Sorted (· ≤ ·)) {p q : ℚ}
    (hp : 0 ≤ p) (hpq : p ≤ q) : interpSorted a p ≤ interpSorted a q := by
  have hq : 0 ≤ q := hp.trans hpq
  have hij : (⌊p⌋).toNat ≤ (⌊q⌋).toNat :=
    Int.toNat_le_toNat (Int.floor_le_floor hpq)
  simp only [interpSorted]
  set i := (⌊p⌋).toNat with hidef
  set j := (⌊q⌋).toNat with hjdef
  have hDi : 0 ≤ nthClamped a (i + 1) - nthClamped a i :=
    sub_nonneg.mpr (nthClamped_mono ha (Nat.le_succ i))
  have hDj : 0 ≤ nthClamped a (j + 1) - nthClamped a j :=
    sub_nonneg.mpr (nthClamped_mono ha (Nat.le_succ j))
  have hpi : (i : ℚ) ≤ p := toNat_floor_le hp
  have hpi1 : p < (i : ℚ) + 1 := lt_toNat_floor_add_one hp
  have hqj : (j : ℚ) ≤ q := toNat_floor_le hq
  rcases eq_or_lt_of_le hij with heq | hlt
  · rw [← heq]
    have hstep : 0 ≤ (q - p) * (nthClamped a (i + 1) - nthClamped a i) :=
      mul_nonneg (by linarith) hDi
    nlinarith [hstep]
  · have h1 : nthClamped a i + (p - (i : ℚ)) * (nthClamped a (i + 1) - nthClamped a i)
        ≤ nthClamped a (i + 1) := by
      have hstep : 0 ≤ (1 - (p - (i : ℚ))) * (nthClamped a (i + 1) - nthClamped a i) :=
        mul_nonneg (by linarith) hDi
      nlinarith [hstep]
    have h2 : nthClamped a (i + 1) ≤ nthClamped a j := nthClamped_mono ha hlt
    have h3 : nthClamped a j
        ≤ nthClamped a j + (q - (j : ℚ)) * (nthClamped a (j + 1) - nthClamped a j) := by
      have hstep : 0 ≤ (q - (j : ℚ)) * (nthClamped a (j + 1) - nthClamped a j) :=
        mul_nonneg (by linarith) hDj
      linarith
    linarith

/-- `np.percentile` with linear interpolation is monotone in the percentile
argument on a nonempty population. -/
theorem npPercentile_mono {values : List ℚ} (hne : values ≠ [])
    {q1 q2 : ℚ} (h0 : 0 ≤ q1) (h12 : q1 ≤ q2) :
    npPercentile values q1 ≤ npPercentile values q2 := by
  have hsorted : (values.insertionSort (· ≤ ·)).Sorted (· ≤ ·) :=
    List.sorted_insertionSort _ _
  have hlen : 1 ≤ values.length := List.length_pos.mpr hne
  have hlenQ : (0 : ℚ) ≤ (values.length : ℚ) - 1 := by
    have h1 : (1 : ℚ) ≤ (values.length : ℚ) := by exact_mod_cast hlen
    linarith
  unfold npPercentile
  apply interpSorted_mono hsorted
  · exact mul_nonneg (div_nonneg h0 (by norm_num)) hlenQ
  · exact mul_le_mul_of_nonneg_right (by linarith) hlenQ

/-- C8: for a fixed metrics table (hence a fixed active set and fixed
composite scores), the zombie set is monotone in the threshold percentile:
every sku classified a zombie under percentile `n1 ≤ n2` is also a zombie
under `n2`, so decreasing the percentile never increases the zombie
count. -/
theorem zombie_threshold_monotone (metrics : List MetricRow) {n1 n2 : ℚ}
    (h0 : 0 ≤ n1) (h12 : n1 ≤ n2) (h100 : n2 ≤ 100) {r : MetricRow}
    (hr : r ∈ identifyZombies metrics n1) : r ∈ identifyZombies metrics n2 := by
  simp only [identifyZombies] at hr ⊢
  by_cases hact :
      (metrics.filter (fun s => decide (0 < s.revenue ∨ 0 < s.quantityOnHand))).isEmpty
  · rw [if_pos hact] at hr
    simp at hr
  · rw [if_neg hact] at hr ⊢
    rw [List.mem_insertionSort, List.mem_filter] at hr ⊢
    obtain ⟨hmem, hle⟩ := hr
    refine ⟨hmem, ?_⟩
    have hmapne :
        (metrics.filter (fun s => decide (0 < s.revenue ∨ 0 < s.quantityOnHand))).map
          (fun s => s.compositeScore) ≠ [] := by
      intro hnil
      exact hact (by simpa [List.isEmpty_iff, List.map_eq_nil_iff] using hnil)
    have hmono := npPercentile_mono hmapne h0 h12
    simp only [decide_eq_true_eq] at hle ⊢
    exact hle.trans hmono

/-- Witness for C8: in a two-row active table with composite scores 1 and
2, the low row is a zombie at percentile 10 (threshold 11/10), hence also
at percentile 20. -/
theorem zombie_threshold_monotone_witness :
    demoMetricLow ∈ identifyZombies demoMetrics 20 := by
  have hmem : demoMetricLow ∈ identifyZombies demoMetrics 10 := by
    have hthr : npPercentile [1, 2] 10 = 11 / 10 := by
      norm_num [npPercentile, interpSorted, nthClamped, List.insertionSort,
        List.orderedInsert, show Int.toNat 0 = 0 from rfl]
    simp only [identifyZombies, demoMetrics, demoMetricLow, demoMetricHigh]
    norm_num [List.filter_cons, List.insertionSort, List.orderedInsert, hthr]
  exact zombie_threshold_monotone demoMetrics (by norm_num) (by norm_num)
    (by norm_num) hmem

/-- C9: every sku retained by the slow-mover filter (days of supply at
least the threshold, or infinite from zero velocity) receives urgency
`critical` or `high`; the `medium` branch is unreachable for retained rows;
and infinite days of supply always yields `critical`. -/
theorem slowMover_urgency_never_medium (threshold : ℚ) (days : Option ℚ)
    (h : isSlowMover threshold days = true) :
    (getUrgency threshold days = "critical" ∨ getUrgency threshold days = "high") ∧
    getUrgency threshold days ≠ "medium" ∧
    (days = none → getUrgency threshold days = "critical") := by
  cases days with
  | none => simp [getUrgency]
  | some d =>
    simp only [isSlowMover, decide_eq_true_eq] at h
    by_cases h365 : (365 : ℚ) ≤ d
    · simp [getUrgency, h365]
    · simp [getUrgency, h365, h]

/-- Witness for C9 at threshold 180: a sku with 200 days of supply is
retained and classified `high`; a sku with no sales is `critical`. -/
theorem slowMover_urgency_never_medium_witness :
    (getUrgency 180 (some 200) = "critical" ∨ getUrgency 180 (some 200) = "high") ∧
    getUrgency 180 (some 200) ≠ "medium" ∧
    getUrgency 180 none = "critical" :=
  ⟨(slowMover_urgency_never_medium 180 (some 200) (by decide)).1,
   (slowMover_urgency_never_medium 180 (some 200) (by decide)).2.1,
   (slowMover_urgency_never_medium 180 none (by decide)).2.2 rfl⟩

/-- C10: the stronger/weaker assignment is total and deterministic on
ties — when both revenues are defined and equal, the non-strict comparison
`revenue1 >= revenue2` holds, so the stronger sku is `sku1` (the first sku
of the canonical pair ordering) and the weaker sku is `sku2`. -/
theorem cannibalization_tie_breaks_to_sku1 (row : CannibalizationPair) (a : ℚ)
    (h1 : row.revenue1 = some a) (h2 : row.revenue2 = some a) :
    strongerSku row = row.sku1 ∧ weakerSku row = row.sku2 := by
  simp [strongerSku, weakerSku, revenueGe, h1, h2]

/-- Witness for C10 at a concrete tied pair. -/
theorem cannibalization_tie_breaks_to_sku1_witness :
    strongerSku ⟨"P", "Q", 9 / 10, some 500, some 500⟩ = "P" ∧
    weakerSku ⟨"P", "Q", 9 / 10, some 500, some 500⟩ = "Q" :=
  cannibalization_tie_breaks_to_sku1 ⟨"P", "Q", 9 / 10, some 500, some 500⟩ 500 rfl rfl

end ProductPerf
